import Mathlib

/-!
A shallow embedding of the data layer and request handlers of the CRM
backend in `src/index.js`, with theorems checking its natural-language
specification.

The document store is modelled as explicit lists of records; each Express
handler becomes a pure function from a database state (and the request's
parameters) to an HTTP outcome paired with the successor state.
-/

namespace Crm

/-- A SalesAgent document: identifier, `name`, `email`. -/
structure SalesAgent where
  _id : String
  name : String
  email : String
  deriving DecidableEq

/-- A Lead document: `status` and `source` strings, a nullable reference to
a SalesAgent, a list of tags, and the `createdAt` timestamp. -/
structure Lead where
  _id : String
  name : String
  status : String
  source : String
  salesAgentId : Option String
  tags : List String
  createdAt : Nat
  deriving DecidableEq

/-- A Comment document: reference to its Lead, reference to its author
(a SalesAgent), text, and the `createdAt` timestamp. -/
structure CommentDoc where
  _id : String
  lead : String
  author : String
  text : String
  createdAt : Nat
  deriving DecidableEq

/-- The persistence state: the three collections the handlers touch. -/
structure DB where
  leads : List Lead
  agents : List SalesAgent
  comments : List CommentDoc
  deriving DecidableEq

/-- HTTP outcomes of the handlers, by status code. `crash` stands for a
handler that threw synchronously out of both its try and its catch block,
so that no response is produced at all. -/
inductive HttpResult where
  | ok (message : String)
  | created
  | badRequest (message : String)
  | notFound (message : String)
  | conflict (message : String)
  | serverError (message : String)
  | crash
  deriving DecidableEq

/-- The `GET /leads` query string: the four keys `getAllLeads` reads
(absent key = `none`, key present with an empty value = `some ""`), plus
whatever other query parameters the request carried, which the code never
reads. -/
structure LeadQuery where
  salesAgentId : Option String
  status : Option String
  source : Option String
  tags : Option String
  other : List (String × String)
  deriving DecidableEq

/-- JavaScript truthiness of an optional query-string value, as tested by
`if (filters.x)`: an absent key and the empty string are falsy, any other
string is truthy. -/
def truthy : Option String → Bool
  | none => false
  | some s => s != ""

/-- The Mongo query object built by `getAllLeads` (src/index.js lines
32-37): a key is present only when the corresponding filter was truthy;
`tags` becomes an `$in` list split on commas. -/
structure MongoLeadQuery where
  salesAgentId : Option String
  status : Option String
  source : Option String
  tagsIn : Option (List String)

/-- Embedding of the query-building statements of `getAllLeads`
(src/index.js lines 32-37). -/
def buildLeadQuery (filters : LeadQuery) : MongoLeadQuery :=
  { salesAgentId := if truthy filters.salesAgentId then filters.salesAgentId else none,
    status := if truthy filters.status then filters.status else none,
    source := if truthy filters.source then filters.source else none,
    tagsIn := if truthy filters.tags then some ((filters.tags.getD "").splitOn ",") else none }

/-- Whether a lead document matches a Mongo lead query: an absent key
imposes no constraint; `salesAgentId`, `status` and `source` are equality
constraints; `tagsIn` is Mongo `$in` applied to the array field `tags`,
which matches when at least one listed value occurs among the document's
tags. -/
def matchesLeadQuery (q : MongoLeadQuery) (l : Lead) : Bool :=
  (match q.salesAgentId with
   | none => true
   | some s => l.salesAgentId == some s) &&
  (match q.status with
   | none => true
   | some s => l.status == s) &&
  (match q.source with
   | none => true
   | some s => l.source == s) &&
  (match q.tagsIn with
   | none => true
   | some ts => ts.any (fun t => l.tags.contains t))

/-- Embedding of `getAllLeads` (src/index.js lines 31-40): build the query
from the truthy filters and return the matching leads. The `populate`
call only changes how the referenced agent is rendered inside each
returned record, never which leads are returned, and is omitted here. -/
def getAllLeads (db : DB) (filters : LeadQuery) : List Lead :=
  db.leads.filter (matchesLeadQuery (buildLeadQuery filters))

/-- Embedding of the `GET /report/pipeline` count (src/index.js lines
233-235): `countDocuments({ status: { $ne: "Closed" } })`. -/
def pipelineCount (db : DB) : Nat :=
  (db.leads.filter (fun l => l.status != "Closed")).length

/-- Embedding of `deleteLead` (src/index.js lines 53-55),
`findByIdAndDelete`: remove the document carrying the given id and return
it, or return `none` when no such lead exists. Only the `leads`
collection is touched. -/
def deleteLead (db : DB) (id : String) : Option (Lead × DB) :=
  match db.leads.find? (fun l => l._id == id) with
  | none => none
  | some l => some (l, { db with leads := db.leads.eraseP (fun x => x._id == id) })

/-- Embedding of the `DELETE /leads/:id` handler (src/index.js lines
100-109). -/
def deleteLeadHandler (db : DB) (id : String) : HttpResult × DB :=
  match deleteLead db id with
  | none => (.notFound "Lead not found.", db)
  | some (_, db2) => (.ok "Lead deleted.", db2)

/-- Result of evaluating a JavaScript block: a value, or a thrown
exception. -/
inductive JsEval (α : Type) where
  | value (a : α)
  | thrown (message : String)

/-- Embedding of the try block of the `DELETE /agents/:id` handler
(src/index.js lines 112-127). Its first statement, line 113, evaluates
`new mongoose.Types.ObjectId(req.params.id)`, but the identifier
`mongoose` is bound nowhere in `index.js` — the file never requires the
mongoose module — so evaluation throws a ReferenceError before the
`Lead.find` referential check or the delete can run, on every input. -/
def deleteAgentTryBlock (_db : DB) (_id : String) : JsEval (HttpResult × DB) :=
  .thrown "ReferenceError: mongoose is not defined"

/-- Embedding of the catch block of the `DELETE /agents/:id` handler
(src/index.js lines 128-131). The catch clause binds no exception
variable, yet line 129 evaluates `console.error(error)`; the identifier
`error` is unbound there, so the block throws a second ReferenceError
before the 500 response of line 130 can be sent. -/
def deleteAgentCatchBlock (_db : DB) : JsEval (HttpResult × DB) :=
  .thrown "ReferenceError: error is not defined"

/-- Embedding of the `DELETE /agents/:id` handler (src/index.js lines
111-132): run the try block; on a throw run the catch block; a throw out
of the catch block leaves the request without any response (`crash`).
The database is never touched on a crashed request. -/
def deleteAgentHandler (db : DB) (id : String) : HttpResult × DB :=
  match deleteAgentTryBlock db id with
  | .value r => r
  | .thrown _ =>
    match deleteAgentCatchBlock db with
    | .value r => r
    | .thrown _ => (.crash, db)

/-- The body of a `POST /agents` request. -/
structure AgentInput where
  name : String
  email : String
  deriving DecidableEq

/-- The agent document persisted for a `POST /agents` body, with a fresh
identifier. -/
def newAgent (db : DB) (body : AgentInput) : SalesAgent :=
  { _id := "agent" ++ toString db.agents.length, name := body.name, email := body.email }

/-- Modelled from the spec: the SalesAgent schema lives in
`./models/salesAgent.models`, which is not among the sources. Per the
spec, agent creation requires a syntactically valid email (abstracted
here as containing the character `@`) that is unique across all agents,
and a uniqueness violation surfaces as the storage duplicate-key error,
code 11000. `saveAgent` embeds `addAgent` (src/index.js lines 135-138)
over that schema: a validation failure throws a generic error (code 0),
a duplicate email throws 11000, and otherwise the agent is appended with
a fresh identifier. -/
def saveAgent (db : DB) (body : AgentInput) : Except Nat DB :=
  if !(body.email.data.contains '@') then .error 0
  else if db.agents.any (fun a => a.email == body.email) then .error 11000
  else .ok { db with agents := db.agents ++ [newAgent db body] }

/-- Embedding of the `POST /agents` handler (src/index.js lines 144-156):
201 on success; the duplicate-key error code 11000 is mapped to a 409
conflict, any other failure to a generic 400. -/
def postAgentsHandler (db : DB) (body : AgentInput) : HttpResult × DB :=
  match saveAgent db body with
  | .ok db2 => (.created, db2)
  | .error code =>
    if code == 11000 then (.conflict "Agent with this email already exists.", db)
    else (.badRequest "Failed to create agent.", db)

/-- The body of a `POST /leads/:id/comments` request: it may carry a
`lead` field of its own, besides the author reference and the text. -/
structure CommentInput where
  lead : Option String
  author : String
  text : String
  deriving DecidableEq

/-- Embedding of `addComment` (src/index.js lines 167-173): look the lead
up; an absent lead yields `null` and no write; otherwise persist
`{ ...newComment, lead: leadId }` — the spread puts the body's fields
first and the route's `leadId` after them, so the stored `lead` field is
always the path parameter, whatever the body carried. `now` is the
`createdAt` timestamp the storage layer assigns at save time. -/
def addComment (db : DB) (leadId : String) (body : CommentInput) (now : Nat) :
    Option (CommentDoc × DB) :=
  match db.leads.find? (fun l => l._id == leadId) with
  | none => none
  | some _ =>
    let c : CommentDoc :=
      { _id := "comment" ++ toString db.comments.length, lead := leadId,
        author := body.author, text := body.text, createdAt := now }
    some (c, { db with comments := db.comments ++ [c] })

/-- Embedding of the `POST /leads/:id/comments` handler (src/index.js
lines 185-194). -/
def postCommentHandler (db : DB) (leadId : String) (body : CommentInput) (now : Nat) :
    HttpResult × DB :=
  match addComment db leadId body now with
  | none => (.notFound "Lead not found.", db)
  | some (_, db2) => (.created, db2)

/-- A comment as returned by `GET /leads/:id/comments`: the `author`
reference is populated with the referenced agent's `name` and `email`
(or `null` when the reference does not resolve). -/
structure CommentOut where
  _id : String
  lead : String
  author : Option (String × String)
  text : String
  createdAt : Nat
  deriving DecidableEq

/-- Populate `author` with `name email` only (src/index.js line 177). -/
def expandAuthor (db : DB) (c : CommentDoc) : CommentOut :=
  { _id := c._id, lead := c.lead,
    author := (db.agents.find? (fun a => a._id == c.author)).map
      (fun a => (a.name, a.email)),
    text := c.text, createdAt := c.createdAt }

/-- Insert a comment into a list already sorted by descending `createdAt`,
keeping it sorted. -/
def insertDesc (c : CommentDoc) : List CommentDoc → List CommentDoc
  | [] => [c]
  | d :: ds => if d.createdAt ≤ c.createdAt then c :: d :: ds else d :: insertDesc c ds

/-- Sort comments by descending `createdAt`: the `sort({ createdAt: -1 })`
of src/index.js line 178. -/
def sortDesc : List CommentDoc → List CommentDoc
  | [] => []
  | c :: cs => insertDesc c (sortDesc cs)

/-- Embedding of `getCommentsByLead` (src/index.js lines 175-179): the
comments of the given lead, newest first, authors populated. -/
def getCommentsByLead (db : DB) (leadId : String) : List CommentOut :=
  (sortDesc (db.comments.filter (fun c => c.lead == leadId))).map (expandAuthor db)

/-- The query string with no keys at all. -/
def emptyQuery : LeadQuery :=
  { salesAgentId := none, status := none, source := none, tags := none, other := [] }

/-- The query string carrying only `tags=t`. -/
def tagsQuery (t : String) : LeadQuery := { emptyQuery with tags := some t }

/-- The query string carrying only `status=s`. -/
def statusQuery (s : String) : LeadQuery := { emptyQuery with status := some s }

/-- A sample agent, used by the concrete witnesses. -/
def agentA : SalesAgent := { _id := "agent0", name := "Alice", email := "alice@crm.test" }

/-- A sample lead assigned to `agentA`, tagged `a` and `c`. -/
def leadAC : Lead :=
  { _id := "lead1", name := "Acme", status := "New", source := "Referral",
    salesAgentId := some "agent0", tags := ["a", "c"], createdAt := 3 }

/-- A sample closed lead with no agent, tagged `c` only. -/
def leadC : Lead :=
  { _id := "lead2", name := "Birch", status := "Closed", source := "Website",
    salesAgentId := none, tags := ["c"], createdAt := 7 }

/-- A sample database state for the concrete witnesses. -/
def sampleDB : DB := { leads := [leadAC, leadC], agents := [agentA], comments := [] }

/-- A sample `POST /agents` body. -/
def bodyBob : AgentInput := { name := "Bob", email := "bob@crm.test" }

/-- A second `POST /agents` body with the same email as `bodyBob`. -/
def bodyBob2 : AgentInput := { name := "Bobby", email := "bob@crm.test" }

/-- A sample comment body that tries to smuggle in a different `lead`. -/
def sampleCommentBody : CommentInput :=
  { lead := some "lead2", author := "agent0", text := "note" }

/-- The comment `addComment` persists for `sampleCommentBody` on `lead1`. -/
def sampleSavedComment : CommentDoc :=
  { _id := "comment0", lead := "lead1", author := "agent0", text := "note", createdAt := 9 }

/-- The database state after that comment is persisted. -/
def sampleDBAfter : DB := { sampleDB with comments := [sampleSavedComment] }

/-- Inserting a comment is a permutation of consing it. -/
theorem insertDesc_perm (c : CommentDoc) (l : List CommentDoc) :
    (insertDesc c l).Perm (c :: l) := by
  induction l with
  | nil => exact List.Perm.refl _
  | cons d ds ih =>
    unfold insertDesc
    split
    · exact List.Perm.refl _
    · exact (ih.cons d).trans (List.Perm.swap c d ds)

/-- Sorting by descending `createdAt` permutes the input. -/
theorem sortDesc_perm (l : List CommentDoc) : (sortDesc l).Perm l := by
  induction l with
  | nil => exact List.Perm.refl _
  | cons c cs ih => exact (insertDesc_perm c (sortDesc cs)).trans (ih.cons c)

/-- Inserting into a list sorted by descending `createdAt` keeps it
sorted. -/
theorem insertDesc_pairwise (c : CommentDoc) (l : List CommentDoc)
    (h : l.Pairwise (fun a b => b.createdAt ≤ a.createdAt)) :
    (insertDesc c l).Pairwise (fun a b => b.createdAt ≤ a.createdAt) := by
  induction l with
  | nil => simp [insertDesc]
  | cons d ds ih =>
    rw [List.pairwise_cons] at h
    obtain ⟨hd, hds⟩ := h
    unfold insertDesc
    split
    case isTrue hle =>
      refine List.Pairwise.cons ?_ (List.Pairwise.cons hd hds)
      intro b hb
      rcases List.mem_cons.mp hb with rfl | hb
      · exact hle
      · exact le_trans (hd b hb) hle
    case isFalse hgt =>
      refine List.Pairwise.cons ?_ (ih hds)
      intro b hb
      rcases List.mem_cons.mp ((insertDesc_perm c ds).mem_iff.mp hb) with rfl | hb
      · omega
      · exact hd b hb

/-- `sortDesc` sorts by descending `createdAt`. -/
theorem sortDesc_pairwise (l : List CommentDoc) :
    (sortDesc l).Pairwise (fun a b => b.createdAt ≤ a.createdAt) := by
  induction l with
  | nil => simp [sortDesc]
  | cons c cs ih => exact insertDesc_pairwise c (sortDesc cs) ih

/-- Splitting a lead list into non-Closed and Closed parts. -/
theorem filter_not_closed_length (l : List Lead) :
    (l.filter (fun x => x.status != "Closed")).length =
      l.length - (l.filter (fun x => x.status == "Closed")).length := by
  induction l with
  | nil => rfl
  | cons a l ih =>
    have hle : (l.filter (fun x => x.status == "Closed")).length ≤ l.length :=
      List.length_filter_le _ _
    by_cases h : a.status = "Closed"
    · simp [List.filter_cons, h, ih]
    · simp [List.filter_cons, h, ih]
      omega

/-- Claim C1: the specification says `DELETE /agents/:id` answers 400
("Agent has assigned leads. Reassign or delete leads first.") when the
agent is referenced by a lead and 200 with deletion when it is not. The
code can do neither: the handler's first statement references the unbound
identifier `mongoose` and throws, its catch block then references the
unbound identifier `error` and throws again, so every `DELETE /agents/:id`
request ends without any response and without touching the database. -/
theorem C1_delete_agent_always_crashes (db : DB) (id : String) :
    deleteAgentHandler db id = (.crash, db) := rfl

/-- Claim C3: the `GET /report/pipeline` count equals the count of all
leads minus the count of leads whose status is "Closed", for every
database state. -/
theorem C3_pipeline_count (db : DB) :
    pipelineCount db =
      db.leads.length - (db.leads.filter (fun l => l.status == "Closed")).length :=
  filter_not_closed_length db.leads

/-- Claim C8: deleting a lead via `DELETE /leads/:id` leaves the comments
collection unchanged, for every database state and identifier — the
delete does not cascade, so comments referencing the deleted lead remain
as orphans. -/
theorem C8_delete_lead_no_cascade (db : DB) (id : String) :
    ((deleteLeadHandler db id).2).comments = db.comments := by
  cases h : db.leads.find? (fun l => l._id == id) <;>
    simp [deleteLeadHandler, deleteLead, h]

/-- Claim C2: for every database state and every non-empty comma-separated
tags filter, `GET /leads?tags=...` returns exactly the leads whose tag
set intersects the listed tags: a lead is in the result precisely when it
is stored and carries at least one of the listed tags. -/
theorem C2_tags_filter_intersection (db : DB) (t : String) (ht : t ≠ "") (l : Lead) :
    l ∈ getAllLeads db (tagsQuery t) ↔
      l ∈ db.leads ∧ ∃ x ∈ t.splitOn ",", x ∈ l.tags := by
  have htb : (t != "") = true := by simpa using ht
  simp [getAllLeads, List.mem_filter, matchesLeadQuery, buildLeadQuery, tagsQuery,
    emptyQuery, truthy, htb, List.any_eq_true, List.elem_iff]

/-- Witness for C2 at a concrete input: filter `tags=a,b` on the sample
database, where `leadAC` carries tags `a` and `c`. -/
theorem C2_tags_filter_intersection_witness :
    ("a,b" ≠ "") ∧
      (leadAC ∈ getAllLeads sampleDB (tagsQuery "a,b") ↔
        leadAC ∈ sampleDB.leads ∧ ∃ x ∈ "a,b".splitOn ",", x ∈ leadAC.tags) :=
  ⟨by decide, C2_tags_filter_intersection sampleDB "a,b" (by decide) leadAC⟩

/-- Claim C7: `GET /leads?status=Closed` returns exactly the leads whose
status is "Closed", and the empty filter (every key absent) returns every
lead, for every database state. -/
theorem C7_status_filter_and_open_filter (db : DB) :
    getAllLeads db (statusQuery "Closed") =
        db.leads.filter (fun l => l.status == "Closed") ∧
      getAllLeads db emptyQuery = db.leads := by
  constructor
  · have hp : matchesLeadQuery (buildLeadQuery (statusQuery "Closed")) =
        fun l => l.status == "Closed" := by
      funext l
      simp [matchesLeadQuery, buildLeadQuery, statusQuery, emptyQuery, truthy]
    simp [getAllLeads, hp]
  · have hp : matchesLeadQuery (buildLeadQuery emptyQuery) = fun _ => true := by
      funext l
      simp [matchesLeadQuery, buildLeadQuery, emptyQuery, truthy]
    simp [getAllLeads, hp]

/-- Claim C9: a filter key bound to the empty string is treated exactly
like an absent key — the truthiness check skips it — and query parameters
other than the four known keys never influence the result. -/
theorem C9_empty_value_like_absent (db : DB) (q : LeadQuery) (o : List (String × String)) :
    getAllLeads db { q with salesAgentId := some "" } =
        getAllLeads db { q with salesAgentId := none } ∧
      getAllLeads db { q with status := some "" } =
        getAllLeads db { q with status := none } ∧
      getAllLeads db { q with source := some "" } =
        getAllLeads db { q with source := none } ∧
      getAllLeads db { q with tags := some "" } =
        getAllLeads db { q with tags := none } ∧
      getAllLeads db { q with other := o } = getAllLeads db q := by
  refine ⟨?_, ?_, ?_, ?_, ?_⟩ <;> simp [getAllLeads, buildLeadQuery, truthy]

/-- Claim C6: for every database state and lead identifier — hence for
every insertion order of the comments — `GET /leads/:id/comments` returns
that lead's comments sorted by descending creation time, and the result
is exactly (a permutation of) those comments with the author reference
expanded to the referenced agent's name and email. -/
theorem C6_comments_newest_first (db : DB) (leadId : String) :
    (getCommentsByLead db leadId).Pairwise (fun a b => b.createdAt ≤ a.createdAt) ∧
      (getCommentsByLead db leadId).Perm
        ((db.comments.filter (fun c => c.lead == leadId)).map (expandAuthor db)) := by
  constructor
  · unfold getCommentsByLead
    rw [List.pairwise_map]
    exact sortDesc_pairwise (db.comments.filter (fun c => c.lead == leadId))
  · unfold getCommentsByLead
    exact (sortDesc_perm _).map _

/-- Claim C5: when the lead identifier resolves to no stored lead,
`POST /leads/:id/comments` answers 404 ("Lead not found.") and the
database — in particular the comments collection — is unchanged. -/
theorem C5_comment_on_missing_lead (db : DB) (leadId : String) (body : CommentInput)
    (now : Nat) (h : ∀ l ∈ db.leads, l._id ≠ leadId) :
    postCommentHandler db leadId body now = (.notFound "Lead not found.", db) := by
  have hf : db.leads.find? (fun l => l._id == leadId) = none := by
    rw [List.find?_eq_none]
    intro l hl
    simpa using h l hl
  simp [postCommentHandler, addComment, hf]

/-- Witness for C5 at a concrete input: the sample database stores no
lead with identifier "ghost". -/
theorem C5_comment_on_missing_lead_witness :
    (∀ l ∈ sampleDB.leads, l._id ≠ "ghost") ∧
      postCommentHandler sampleDB "ghost" sampleCommentBody 4 =
        (.notFound "Lead not found.", sampleDB) :=
  ⟨by decide, C5_comment_on_missing_lead sampleDB "ghost" sampleCommentBody 4 (by decide)⟩

/-- Claim C10: every comment `addComment` persists carries as its `lead`
field the identifier taken from the URL path, whatever `lead` value the
request body supplied: the body's field is always overridden by the
route's parameter. -/
theorem C10_comment_lead_is_path_param (db : DB) (leadId : String) (body : CommentInput)
    (now : Nat) (c : CommentDoc) (db2 : DB)
    (h : addComment db leadId body now = some (c, db2)) : c.lead = leadId := by
  unfold addComment at h
  split at h
  · exact Option.noConfusion h
  · simp only [Option.some.injEq, Prod.mk.injEq] at h
    obtain ⟨hc, -⟩ := h
    rw [← hc]

/-- Witness for C10 at a concrete input: the body names `lead2`, the path
names `lead1`, and the stored comment references `lead1`. -/
theorem C10_comment_lead_is_path_param_witness :
    addComment sampleDB "lead1" sampleCommentBody 9 = some (sampleSavedComment, sampleDBAfter) ∧
      sampleSavedComment.lead = "lead1" :=
  ⟨by decide, C10_comment_lead_is_path_param sampleDB "lead1" sampleCommentBody 9
    sampleSavedComment sampleDBAfter (by decide)⟩

/-- Inversion of a successful `saveAgent`: the email was valid and not
yet taken, and the agent was appended. -/
theorem saveAgent_ok_inv (db : DB) (b : AgentInput) (db2 : DB)
    (h : saveAgent db b = .ok db2) :
    b.email.data.contains '@' = true ∧
      (db.agents.any fun a => a.email == b.email) = false ∧
      db2 = { db with agents := db.agents ++ [newAgent db b] } := by
  unfold saveAgent at h
  split at h
  · exact Except.noConfusion h
  · rename_i h1
    split at h
    · exact Except.noConfusion h
    · rename_i h2
      refine ⟨by simpa using h1, by simpa using h2, ?_⟩
      injection h with h3
      exact h3.symm

/-- Saving an agent whose (valid) email is already taken throws the
duplicate-key error 11000. -/
theorem saveAgent_duplicate (db : DB) (b : AgentInput)
    (hv : b.email.data.contains '@' = true)
    (hd : db.agents.any (fun a => a.email == b.email) = true) :
    saveAgent db b = .error 11000 := by
  unfold saveAgent
  rw [hv]
  simp [hd]

/-- Claim C4: after a `POST /agents` request succeeds, a second
`POST /agents` request carrying the same email fails with the 409
conflict "Agent with this email already exists." and persists nothing:
the database is exactly what the first request left. -/
theorem C4_duplicate_email_conflict (db : DB) (b1 b2 : AgentInput)
    (he : b1.email = b2.email) (h : (postAgentsHandler db b1).1 = .created) :
    (postAgentsHandler (postAgentsHandler db b1).2 b2).1 =
        .conflict "Agent with this email already exists." ∧
      (postAgentsHandler (postAgentsHandler db b1).2 b2).2 = (postAgentsHandler db b1).2 := by
  have hs1 : ∃ dbx, saveAgent db b1 = .ok dbx := by
    cases hs : saveAgent db b1 with
    | ok dbx => exact ⟨dbx, rfl⟩
    | error code =>
      exfalso
      unfold postAgentsHandler at h
      rw [hs] at h
      by_cases hc : code == 11000 <;> simp [hc] at h
  obtain ⟨db1, hsave⟩ := hs1
  obtain ⟨hv, hd, hdb⟩ := saveAgent_ok_inv db b1 db1 hsave
  have hsnd : (postAgentsHandler db b1).2 = db1 := by
    unfold postAgentsHandler
    rw [hsave]
  have hv2 : b2.email.data.contains '@' = true := by
    rw [← he]
    exact hv
  have hd2 : db1.agents.any (fun a => a.email == b2.email) = true := by
    rw [hdb]
    simp [newAgent, List.any_append, ← he]
  have hs2 : saveAgent db1 b2 = .error 11000 := saveAgent_duplicate db1 b2 hv2 hd2
  rw [hsnd]
  unfold postAgentsHandler
  rw [hs2]
  simp

/-- Witness for C4 at a concrete input: creating `bodyBob` succeeds on
the sample database, and re-creating the same email as `bodyBob2`
conflicts without persisting anything. -/
theorem C4_duplicate_email_conflict_witness :
    bodyBob.email = bodyBob2.email ∧
      (postAgentsHandler sampleDB bodyBob).1 = .created ∧
      ((postAgentsHandler (postAgentsHandler sampleDB bodyBob).2 bodyBob2).1 =
          .conflict "Agent with this email already exists." ∧
        (postAgentsHandler (postAgentsHandler sampleDB bodyBob).2 bodyBob2).2 =
          (postAgentsHandler sampleDB bodyBob).2) :=
  ⟨by decide, by decide,
    C4_duplicate_email_conflict sampleDB bodyBob bodyBob2 (by decide) (by decide)⟩

end Crm
